import Mathlib

/-!
EdgeBackend — verification of the slug / cache / serializer core

A shallow embedding of the slug-assignment, cache-invalidation,
presentation-mapper and model-validation logic of the EdgeBackend
repository (`Systems/models.py`, `Systems/serializers.py`,
`Systems/views.py`, `Systems/cache_utils.py`), together with theorems
settling the specification's claims about that logic.

Conventions:
* Django model instances become Lean structures; `None`/blank text fields
  become `Option`/`String` with `""` standing for blank.
* The database table of an entity type is a `List` of rows; the queryset
  `filter(slug=s).exclude(pk=self.pk)` becomes list filtering.
* Python exceptions become explicit error values (`PyError`, `Except`).
-/

namespace EdgeBackend

/-! ## `django.utils.text.slugify` (ASCII path)

`slugify(value)` lowercases, strips characters outside `[\w\s-]`,
collapses runs of hyphens/whitespace to a single hyphen, and strips
leading/trailing hyphens and underscores. -/

/-- A character kept by `re.sub(r"[^\w\s-]", "", ...)`: word char (`\w`),
whitespace (`\s`), or hyphen. -/
def isSlugKeepChar (c : Char) : Bool :=
  c.isAlphanum || c = '_' || c = ' ' || c = '\t' || c = '\n' || c = '\r' || c = '-'

/-- A character matched by `[-\s]` (hyphen or whitespace). -/
def isSepChar (c : Char) : Bool :=
  c = '-' || c = ' ' || c = '\t' || c = '\n' || c = '\r'

/-- Embedding of `re.sub(r"[-\s]+", "-", ...)`: each maximal run of separator
characters becomes a single hyphen.  The boolean records whether the
previous character belonged to a separator run. -/
def collapseSeps : Bool → List Char → List Char
  | _, [] => []
  | prevSep, c :: rest =>
    if isSepChar c then
      if prevSep then collapseSeps true rest
      else '-' :: collapseSeps true rest
    else c :: collapseSeps false rest

/-- A character stripped by `.strip("-_")`. -/
def isStripChar (c : Char) : Bool := c = '-' || c = '_'

/-- Embedding of `.strip("-_")` on a character list. -/
def stripDashUnderscore (l : List Char) : List Char :=
  ((l.dropWhile isStripChar).reverse.dropWhile isStripChar).reverse

/-- Embedding of `django.utils.text.slugify` restricted to ASCII input (the NFKD /
ascii-encode step is the identity there); `.lower()` is per-character
lowercasing. -/
def slugify (value : String) : String :=
  String.mk (stripDashUnderscore
    (collapseSeps false ((value.data.map Char.toLower).filter isSlugKeepChar)))

/-! ## Decimal representation: `Nat.repr` is injective

The collision loop builds candidates `f"{base_slug}-{counter}"`; to reason
about the loop we need distinctness of those candidate strings, hence
injectivity of the decimal rendering `Nat.repr`. We prove it by a
round-trip through a decoding fold. -/

/-- The most-significant-first decimal digit list of `n`, as produced by
`Nat.toDigitsCore` when given sufficient fuel. -/
def decDigits (n : Nat) : List Char :=
  if _h : n < 10 then [Nat.digitChar n]
  else decDigits (n / 10) ++ [Nat.digitChar (n % 10)]
  decreasing_by exact Nat.div_lt_self (by omega) (by omega)

/-- Decode a digit character back to its value. -/
def decodeDigit (c : Char) : Nat := c.toNat - 48

/-- Decode a most-significant-first digit list. -/
def decodeDigits (l : List Char) : Nat :=
  l.foldl (fun acc c => 10 * acc + decodeDigit c) 0

/-! ## The slug collision loop

Every `save` method resolves slug collisions the same way:

```python
base_slug = slugify(self.name)
slug = base_slug
counter = 1
while <queryset>.filter(slug=slug)...exists():
    slug = f"{base_slug}-{counter}"
    counter += 1
self.slug = slug
```

so the candidates tried are `base`, `base-1`, `base-2`, … and the loop
stops at the first candidate not in the set of taken slugs. -/

/-- The `n`-th candidate slug: `base` itself for `n = 0`, then
`f"{base_slug}-{n}"`. -/
def candidate (base : String) : Nat → String
  | 0 => base
  | n + 1 => base ++ "-" ++ Nat.repr (n + 1)

/-- Body of the collision `while` loop. `fuel` bounds the number of
membership tests; `resolveSlug` supplies `taken.length + 1`, which
`slugSearch_spec` + `exists_candidate_free` prove is always enough, so
the fuel-exhaustion branch is unreachable. -/
def slugSearch (taken : List String) (base : String) : Nat → Nat → String
  | counter, 0 => candidate base counter
  | counter, fuel + 1 =>
    if candidate base counter ∈ taken then slugSearch taken base (counter + 1) fuel
    else candidate base counter

/-- The slug the `save` methods assign: the first of `base`, `base-1`,
`base-2`, … not contained in `taken` (the slugs returned by the
collision queryset). -/
def resolveSlug (taken : List String) (base : String) : String :=
  slugSearch taken base 0 (taken.length + 1)

/-! ## Data model (`Systems/models.py`)

Rows carry `pk : Option Nat` — `none` for an unsaved instance (Django's
`self.pk is None`), `some k` for a stored row. A table is a `List` of
rows, all of which have `some` pk. Text fields use `""` for blank;
nullable fields use `Option`. Foreign keys hold the referenced object,
as attribute access does in the ORM (`product.subcategory.slug`). -/

/-- Choices of `Category.CATEGORY_TYPES`. -/
inductive CategoryType
  | fire_safety
  | ict
  | solar
  deriving DecidableEq, Repr

/-- Choices of `Product.PRICE_VISIBILITY_CHOICES`. -/
inductive PriceVisibility
  | publicVis
  | login_required
  deriving DecidableEq, Repr

/-- Choices of `Product.STOCK_STATUS_CHOICES`. -/
inductive StockStatus
  | in_stock
  | out_of_stock
  deriving DecidableEq, Repr

structure Category where
  pk : Option Nat
  name : String
  type : CategoryType
  slug : String
  deriving DecidableEq, Repr

structure Subcategory where
  pk : Option Nat
  category : Category
  name : String
  slug : String
  deriving DecidableEq, Repr

/-- Fields of `Product` — the fields the verified logic touches. `price` is the
`DecimalField` value (exact decimal, modelled as `ℚ`), `none` when NULL;
`image` / `documentation` hold the stored reference when present. -/
structure Product where
  pk : Option Nat
  subcategory : Subcategory
  name : String
  brand : Option String
  sku : Option String
  is_popular : Bool
  price : Option ℚ
  price_visibility : PriceVisibility
  description : String
  features : String
  image : Option String
  slug : String
  documentation : Option String
  documentation_label : String
  status : StockStatus
  stock : Nat
  meta_title : Option String
  meta_description : Option String
  deriving DecidableEq, Repr

structure Blog where
  pk : Option Nat
  title : String
  slug : String
  excerpt : String
  content : String
  image : Option String
  source_name : Option String
  source_url : Option String
  is_published : Bool
  deriving DecidableEq, Repr

/-- Slugs of the rows matched by
`<Model>.objects.filter(slug=...).exclude(pk=self.pk)` for each
candidate: all stored slugs except the saved record's own row. For a new
record (`pk = none`) nothing is excluded, matching Django, where
`exclude(pk=None)` excludes no stored row. -/
def otherSlugs {α : Type} (pkOf : α → Option Nat) (slugOf : α → String)
    (db : List α) (pk : Option Nat) : List String :=
  (db.filter (fun r => pkOf r ≠ pk ∨ pk = none)).map slugOf

/-- Slugs of all stored rows (`Blog.objects.filter(slug=...)`, which
does *not* exclude the record being saved). -/
def allSlugs (db : List Blog) : List String := db.map Blog.slug

/-- Embedding of `Category.save`: assign a slug when blank, then persist
(the returned value is the row written by `super().save()`). -/
def Category.save (db : List Category) (c : Category) : Category :=
  if c.slug = "" then
    { c with slug := resolveSlug (otherSlugs Category.pk Category.slug db c.pk)
                       (slugify c.name) }
  else c

/-- Embedding of `Subcategory.save`. -/
def Subcategory.save (db : List Subcategory) (s : Subcategory) : Subcategory :=
  if s.slug = "" then
    { s with slug := resolveSlug (otherSlugs Subcategory.pk Subcategory.slug db s.pk)
                       (slugify s.name) }
  else s

/-- Embedding of `Product.save`: assign a slug when blank, then auto-set `status`
from `stock` (`stock > 0 → IN_STOCK`, else `OUT_OF_STOCK`), then
persist. -/
def Product.save (db : List Product) (p : Product) : Product :=
  let p₁ :=
    if p.slug = "" then
      { p with slug := resolveSlug (otherSlugs Product.pk Product.slug db p.pk)
                         (slugify p.name) }
    else p
  if p₁.stock > 0 then { p₁ with status := StockStatus.in_stock }
  else { p₁ with status := StockStatus.out_of_stock }

/-- Embedding of `Blog.save`: same collision loop, but the queryset
`Blog.objects.filter(slug=slug).exists()` has no
`.exclude(pk=self.pk)`, so the saved row's own stored slug also counts
as a collision. -/
def Blog.save (db : List Blog) (b : Blog) : Blog :=
  if b.slug = "" then
    { b with slug := resolveSlug (allSlugs db) (slugify b.title) }
  else b

/-- Database insert: the stored row gets the next autoincrement pk.
`save` runs first (as in `Model.save`), then the row is appended. -/
def freshPk {α : Type} (pkOf : α → Option Nat) (db : List α) : Nat :=
  db.foldl (fun m r => max m ((pkOf r).getD 0)) 0 + 1

/-- Create a new `Category` through `save`: run the model `save`, store
the row under a fresh pk. -/
def Category.create (db : List Category) (c : Category) : Category × List Category :=
  let c' := Category.save db c
  let row := { c' with pk := some (freshPk Category.pk db) }
  (row, db ++ [row])

/-- Create a new `Blog` through `save`. -/
def Blog.create (db : List Blog) (b : Blog) : Blog × List Blog :=
  let b' := Blog.save db b
  let row := { b' with pk := some (freshPk Blog.pk db) }
  (row, db ++ [row])

/-! ## Presentation mapper (`Systems/serializers.py`, `ProductSerializer`) -/

/-- Shape of `request.user` as the serializer sees it. -/
structure RequestUser where
  is_authenticated : Bool
  deriving DecidableEq, Repr

/-- The request placed in the serializer context (`self.context.get('request')`
may be absent, hence the callers pass an `Option Request`). -/
structure Request where
  user : Option RequestUser
  deriving DecidableEq, Repr

/-- Embedding of `bool(request and getattr(request, 'user', None) and request.user.is_authenticated)`. -/
def userIsAuth : Option Request → Bool
  | none => false
  | some r =>
    match r.user with
    | none => false
    | some u => u.is_authenticated

/-- Embedding of `ProductSerializer.get_price`: hide the price from unauthenticated
viewers of `login_required` products; otherwise emit the stored decimal,
`0.00` when NULL. -/
def ProductSerializer.get_price (request : Option Request) (obj : Product) : Option ℚ :=
  if obj.price_visibility = PriceVisibility.login_required ∧ userIsAuth request = false then
    none
  else
    some (match obj.price with
          | some p => p
          | none => 0)

/-- Embedding of `ProductSerializer.get_price_requires_login`. -/
def ProductSerializer.get_price_requires_login (request : Option Request)
    (obj : Product) : Bool :=
  if obj.price_visibility = PriceVisibility.login_required ∧ userIsAuth request = false then
    true
  else
    false

/-- Embedding of `ProductSerializer.get_status`: `return obj.status` — the stored
status field, with no recomputation from `obj.stock`. -/
def ProductSerializer.get_status (obj : Product) : StockStatus :=
  obj.status

/-- The client-facing representation the claims are about (the fields of
`ProductSerializer.Meta.fields` that carry serializer logic). -/
structure ClientProduct where
  name : String
  price : Option ℚ
  price_requires_login : Bool
  status : StockStatus
  stock : Nat
  slug : String
  deriving DecidableEq, Repr

/-- Serialize one product for a viewer
(`ProductSerializer(instance, context={'request': request}).data`). -/
def to_client_view (request : Option Request) (obj : Product) : ClientProduct :=
  { name := obj.name
    price := ProductSerializer.get_price request obj
    price_requires_login := ProductSerializer.get_price_requires_login request obj
    status := ProductSerializer.get_status obj
    stock := obj.stock
    slug := obj.slug }

/-! ## `HeroBanner` (`Systems/models.py`) -/

/-- Choices of `HeroBanner.DISPLAY_MODE_CHOICES`. -/
inductive DisplayMode
  | standard
  | poster
  deriving DecidableEq, Repr

/-- The `HeroBanner` fields its `clean` method reads. Cloudinary image
fields are `none` when NULL. -/
structure HeroBanner where
  pk : Option Nat
  campaign_name : String
  display_mode : DisplayMode
  is_active : Bool
  poster_image : Option String
  title : String
  image_1 : Option String
  deriving DecidableEq, Repr

/-- Python truthiness of an optional text/image field: `None` and the
empty value are falsy. -/
def pyTruthy : Option String → Bool
  | none => false
  | some s => s ≠ ""

/-- A raised Python exception, as `save`'s caller observes it. -/
inductive PyError
  /-- Exception `django.core.exceptions.ValidationError` keyed by field and message. -/
  | validationError (field : String) (message : String)
  /-- Exception `NameError` for an unresolved name. -/
  | nameError (name : String)
  deriving DecidableEq, Repr

/-- Embedding of `HeroBanner.clean`. The source executes
`raise ValidationError({...})` for a missing required field — but
`models.py` never imports `ValidationError`, so evaluating that
statement raises `NameError: name 'ValidationError' is not defined`
instead of the intended field-keyed validation error. The model returns
the exception the code actually raises (`none` when `clean` passes). -/
def HeroBanner.clean (b : HeroBanner) : Option PyError :=
  if b.display_mode = DisplayMode.poster then
    if pyTruthy b.poster_image = false then some (PyError.nameError "ValidationError")
    else none
  else if b.display_mode = DisplayMode.standard then
    if b.title = "" then some (PyError.nameError "ValidationError")
    else if pyTruthy b.image_1 = false then some (PyError.nameError "ValidationError")
    else none
  else none

/-- What `HeroBanner.clean` would return if `models.py` imported
`ValidationError` as the code intends: a field-keyed validation error. -/
def HeroBanner.cleanIntended (b : HeroBanner) : Option PyError :=
  if b.display_mode = DisplayMode.poster then
    if pyTruthy b.poster_image = false then
      some (PyError.validationError "poster_image" "Poster image is required for Poster mode.")
    else none
  else if b.display_mode = DisplayMode.standard then
    if b.title = "" then
      some (PyError.validationError "title" "Title is required for Standard mode.")
    else if pyTruthy b.image_1 = false then
      some (PyError.validationError "image_1" "At least one image is required for Standard mode.")
    else none
  else none

/-- Embedding of `HeroBanner.save`: `self.full_clean()` (which runs `clean`) before
`super().save()`; any exception from `clean` aborts the save, so the
row is only persisted when `clean` raises nothing. -/
def HeroBanner.save (db : List HeroBanner) (b : HeroBanner) :
    Except PyError (List HeroBanner) :=
  match b.clean with
  | some e => Except.error e
  | none => Except.ok (db ++ [b])

/-! ## Cache layer (`settings.CACHE_KEYS`, `Systems/views.py`,
`Systems/cache_utils.py`)

The configured backend is a single in-process key-value store
(`LocMemCache`). A cached value is the payload a view stores: here the
list of product pks a list endpoint returns (`CacheVal`). The store is
an association list keyed by the string cache keys. TTLs only bound
staleness in real time and play no role in the claims, so `set` ignores
the timeout argument. -/

abbrev CacheVal := List Nat

abbrev Cache := List (String × CacheVal)

def cacheGet (c : Cache) (key : String) : Option CacheVal :=
  (c.find? (fun kv => kv.1 = key)).map (fun kv => kv.2)

def cacheSet (c : Cache) (key : String) (v : CacheVal) : Cache :=
  (key, v) :: c.filter (fun kv => kv.1 ≠ key)

/-- Embedding of `cache.delete_many(keys)`. -/
def cacheDeleteMany (c : Cache) (keys : List String) : Cache :=
  c.filter (fun kv => kv.1 ∉ keys)

/-! Key templates from `settings.CACHE_KEYS` (each contains `'{}'`, so
the views take the `.format(...)` branch). -/

def all_products_key : String := "products:all"
def all_categories_key : String := "categories:all"
def all_subcategories_key : String := "subcategories:all"
def popular_products_key : String := "popular_products_list"
def product_detail_key (slug : String) : String := "product:detail:" ++ slug
def products_by_subcategory_key (slug : String) : String := "products:subcategory:" ++ slug
def related_products_key (slug : String) : String := "products:related:" ++ slug

/-- The key under which the `cache_page(60 * 15)` decorator on
`ProductsBySubcategoryView.dispatch` stores the rendered response for
the subcategory's URL. Django derives it from the request URL with a
`views.decorators.cache` prefix; it is never one of the
`settings.CACHE_KEYS` templates. -/
def page_cache_key (subcategorySlug : String) : String :=
  "views.decorators.cache.cache_page:/api/subcategories/" ++ subcategorySlug ++ "/products/"

/-- Embedding of `invalidate_product_caches(product, subcategory)` (views.py): build
the fixed key list — the three global list keys and the popular key,
plus, per argument, the product's detail/related keys and the
subcategory product-list key — then `cache.delete_many`. -/
def invalidate_product_caches (product : Option Product)
    (subcategory : Option Subcategory) (c : Cache) : Cache :=
  let keys := [all_products_key, all_categories_key, all_subcategories_key,
               popular_products_key]
  let keys := keys ++
    (match product with
     | some p => [product_detail_key p.slug, related_products_key p.slug,
                  products_by_subcategory_key p.subcategory.slug]
     | none => [])
  let keys := keys ++
    (match subcategory with
     | some s => [products_by_subcategory_key s.slug]
     | none => [])
  cacheDeleteMany c keys

/-! ### Fallible cache backends (`get_cached_queryset`, `get_or_set_cache`)

For the error-handling claim the backend operations may raise
(`Except String`, the error being the backend exception's message).
Neither `get_cached_queryset` (views.py) nor `get_or_set_cache`
(cache_utils.py) wraps its cache calls in `try/except`, so a raise
propagates to the caller. -/

structure CacheBackend where
  get : String → Except String (Option CacheVal)
  set : String → CacheVal → Except String Unit

/-- Embedding of `get_cached_queryset(cache_key, queryset_func, timeout=900)`
(views.py 67–79): return the cached value on a hit; on a miss compute
`queryset_func()`, store it, return it. No exception handling. -/
def get_cached_queryset (backend : CacheBackend) (cache_key : String)
    (queryset_func : Unit → CacheVal) (_timeout : Nat) :
    Except String CacheVal := do
  let cached_data ← backend.get cache_key
  match cached_data with
  | some data => return data
  | none =>
    let data := queryset_func ()
    _ ← backend.set cache_key data
    return data

/-- Embedding of `get_or_set_cache(cache_key, data_func, timeout=900)`
(cache_utils.py 89–110): identical look-aside logic, also without
exception handling. -/
def get_or_set_cache (backend : CacheBackend) (cache_key : String)
    (data_func : Unit → CacheVal) (_timeout : Nat) :
    Except String CacheVal := do
  let data ← backend.get cache_key
  match data with
  | some d => return d
  | none =>
    let d := data_func ()
    _ ← backend.set cache_key d
    return d

/-- Embedding of `warm_cache(cache_key, data_func, timeout=900)` (cache_utils.py):
unlike the two readers above, it wraps its work in
`try/except Exception: return False`, returning `True` on success. -/
def warm_cache (backend : CacheBackend) (cache_key : String)
    (data_func : Unit → CacheVal) (_timeout : Nat) : Bool :=
  match backend.set cache_key (data_func ()) with
  | Except.ok _ => true
  | Except.error _ => false

/-- Specialisation of `get_cached_queryset` to the configured non-raising
`LocMemCache` backend, with the cache store passed explicitly: the
backend `get`/`set` become lookups/updates on the association list. -/
def get_cached_queryset_loc (c : Cache) (cache_key : String)
    (queryset_func : Unit → CacheVal) : CacheVal × Cache :=
  match cacheGet c cache_key with
  | some data => (data, c)
  | none =>
    let data := queryset_func ()
    (data, cacheSet c cache_key data)

/-! ## Request handlers (`Systems/views.py`) -/

/-- Shape of `serializer.validated_data` for a product create: optional fields are
absent (`none`) when the request did not supply them. The subcategory is
resolved separately by `perform_create` from the URL kwargs. -/
structure ValidatedProductData where
  name : String
  brand : Option String
  sku : Option String
  is_popular : Option Bool
  price : Option ℚ
  price_visibility : Option PriceVisibility
  description : Option String
  features : Option String
  image : Option String
  slug : Option String
  documentation : Option String
  documentation_label : Option String
  status : Option StockStatus
  stock : Option Nat
  deriving DecidableEq, Repr

/-- Embedding of `ProductViewSet.perform_create` (views.py 343–361), from the point
where the subcategory has been resolved from the URL kwargs: default
`stock` to `1` and `status` to `IN_STOCK` when absent from
`validated_data`, then `serializer.save(subcategory=subcategory)` —
which builds the model instance (model field defaults fill in whatever
`validated_data` still omits: `stock=0`, `status=IN_STOCK`, blank
`slug`), assigns the next pk and runs `Product.save`. Returns the stored
product and the updated table. -/
def perform_create (db : List Product) (subcategory : Subcategory)
    (vd : ValidatedProductData) : Product × List Product :=
  let vd := if vd.stock = none then { vd with stock := some 1 } else vd
  let vd := if vd.status = none then { vd with status := some StockStatus.in_stock } else vd
  let instanceP : Product :=
    { pk := some (freshPk Product.pk db)
      subcategory := subcategory
      name := vd.name
      brand := vd.brand
      sku := vd.sku
      is_popular := vd.is_popular.getD false
      price := vd.price
      price_visibility := vd.price_visibility.getD PriceVisibility.publicVis
      description := (vd.description).getD ""
      features := (vd.features).getD ""
      image := vd.image
      slug := (vd.slug).getD ""
      documentation := vd.documentation
      documentation_label := (vd.documentation_label).getD ""
      status := (vd.status).getD StockStatus.in_stock
      stock := (vd.stock).getD 0
      meta_title := none
      meta_description := none }
  let p := Product.save db instanceP
  (p, db ++ [p])

/-- The shared state a request sees: the product table and the process
cache (`LocMemCache`). -/
structure SysState where
  products : List Product
  cache : Cache
  deriving DecidableEq, Repr

/-- Embedding of `Product.objects.filter(subcategory__slug=...).order_by('-id')`,
rendered as the pks the list endpoint serializes. Stored rows carry
increasing pks in insertion order, so `order_by('-id')` is the reverse
of insertion order. -/
def queryProductsBySubcategory (products : List Product) (subcategorySlug : String) :
    CacheVal :=
  ((products.filter (fun p => p.subcategory.slug = subcategorySlug)).map
    (fun p => p.pk.getD 0)).reverse

/-- One GET of `ProductsBySubcategoryView` for an anonymous client.
The view class is wrapped in `@method_decorator(cache_page(60 * 15),
name='dispatch')`, so the whole response is first looked up in the page
cache; on a page miss, `get_queryset` runs the inner look-aside
`get_cached_queryset(products:subcategory:{slug}, fetch_products)`, and
the rendered response is then stored under the page-cache key. -/
def productsBySubcategoryGet (st : SysState) (subcategorySlug : String) :
    CacheVal × SysState :=
  match cacheGet st.cache (page_cache_key subcategorySlug) with
  | some response => (response, st)
  | none =>
    let (data, c') := get_cached_queryset_loc st.cache
      (products_by_subcategory_key subcategorySlug)
      (fun _ => queryProductsBySubcategory st.products subcategorySlug)
    (data, { st with cache := cacheSet c' (page_cache_key subcategorySlug) data })

/-- One POST creating a product under a subcategory:
`perform_create` saves the row, then synchronously calls
`invalidate_product_caches(product=product, subcategory=subcategory)`. -/
def productCreatePost (st : SysState) (subcategory : Subcategory)
    (vd : ValidatedProductData) : Product × SysState :=
  let (p, products') := perform_create st.products subcategory vd
  (p, { products := products',
        cache := invalidate_product_caches (some p) (some subcategory) st.cache })

/-! ## Concrete sample rows used by witnesses and counterexamples -/

def fireCat : Category :=
  { pk := some 1, name := "Fire Safety", type := CategoryType.fire_safety,
    slug := "fire-safety" }

def detectorsSub : Subcategory :=
  { pk := some 1, category := fireCat, name := "Detectors", slug := "detectors" }

/-- A product row whose stored status is stale: `stock = 0` but
`status = IN_STOCK` — reachable by any write that bypasses
`Product.save` (queryset `update`, a migration, direct SQL). -/
def staleProduct : Product :=
  { pk := some 1, subcategory := detectorsSub, name := "Smoke Detector A",
    brand := none, sku := none, is_popular := false, price := some 100,
    price_visibility := PriceVisibility.publicVis, description := "",
    features := "", image := none, slug := "smoke-detector-a",
    documentation := none, documentation_label := "",
    status := StockStatus.in_stock, stock := 0,
    meta_title := none, meta_description := none }

def lockedProduct : Product :=
  { staleProduct with
    pk := some 2
    slug := "locked-product"
    price := some 250
    price_visibility := PriceVisibility.login_required }

def punctCategory : Category :=
  { pk := none, name := "!!!", type := CategoryType.fire_safety, slug := "" }

def helloBlogRow : Blog :=
  { pk := some 1, title := "Hello", slug := "hello", excerpt := "",
    content := "", image := none, source_name := none, source_url := none,
    is_published := true }

def posterBannerNoImage : HeroBanner :=
  { pk := none, campaign_name := "Black Friday 2024",
    display_mode := DisplayMode.poster, is_active := true,
    poster_image := none, title := "", image_1 := none }

def posterBannerWithImage : HeroBanner :=
  { posterBannerNoImage with poster_image := some "hero_banners/posters/bf2024" }

def standardBannerNoTitle : HeroBanner :=
  { pk := none, campaign_name := "Launch", display_mode := DisplayMode.standard,
    is_active := true, poster_image := none, title := "",
    image_1 := some "hero_banners/standard/img1" }

def alphaProduct : Product :=
  { staleProduct with
    name := "Alpha Detector"
    slug := "alpha-detector"
    stock := 5
    status := StockStatus.in_stock }

def betaVD : ValidatedProductData :=
  { name := "Beta Detector", brand := none, sku := none, is_popular := none,
    price := none, price_visibility := none, description := none,
    features := none, image := none, slug := some "beta-detector",
    documentation := none, documentation_label := none, status := none,
    stock := some 3 }

def noStockVD : ValidatedProductData :=
  { betaVD with
    name := "Gamma Detector"
    slug := some "gamma-detector"
    stock := none }

def failingBackend : CacheBackend :=
  { get := fun _ => Except.error "cache backend down",
    set := fun _ _ => Except.ok () }

/-! ## Trace states for the cache-staleness scenario -/

def traceState0 : SysState := { products := [alphaProduct], cache := [] }

def traceState1 : SysState := (productsBySubcategoryGet traceState0 "detectors").2

def traceState2 : SysState := (productCreatePost traceState1 detectorsSub betaVD).2

/-! ## Helper lemmas -/

theorem decodeDigit_digitChar {d : Nat} (h : d < 10) :
    decodeDigit (Nat.digitChar d) = d := by
  interval_cases d <;> rfl

theorem foldl_decode_append (l₁ l₂ : List Char) (a : Nat) :
    (l₁ ++ l₂).foldl (fun acc c => 10 * acc + decodeDigit c) a =
      l₂.foldl (fun acc c => 10 * acc + decodeDigit c)
        (l₁.foldl (fun acc c => 10 * acc + decodeDigit c) a) :=
  List.foldl_append ..

theorem decodeDigits_decDigits (n : Nat) : decodeDigits (decDigits n) = n := by
  induction n using Nat.strong_induction_on with
  | _ n ih =>
    rw [decDigits]
    by_cases h : n < 10
    · simp only [h, dite_true, decodeDigits, List.foldl_cons, List.foldl_nil]
      rw [decodeDigit_digitChar h]
      omega
    · simp only [h, dite_false, decodeDigits, foldl_decode_append]
      have hrec := ih (n / 10) (Nat.div_lt_self (by omega) (by omega))
      unfold decodeDigits at hrec
      rw [hrec, List.foldl_cons, List.foldl_nil,
        decodeDigit_digitChar (Nat.mod_lt n (by omega))]
      omega

theorem decDigits_ne_nil (n : Nat) : decDigits n ≠ [] := by
  rw [decDigits]
  by_cases h : n < 10 <;> simp [h]

/-- With enough fuel, `Nat.toDigitsCore` produces `decDigits n`
prepended to the accumulator. -/
theorem toDigitsCore_eq_decDigits :
    ∀ (fuel n : Nat) (ds : List Char), n < fuel →
      Nat.toDigitsCore 10 fuel n ds = decDigits n ++ ds := by
  intro fuel
  induction fuel with
  | zero => intro n ds h; omega
  | succ fuel ih =>
    intro n ds h
    rw [Nat.toDigitsCore]
    by_cases hdiv : n / 10 = 0
    · have hn : n < 10 := by omega
      rw [if_pos hdiv, decDigits]
      have : n % 10 = n := Nat.mod_eq_of_lt hn
      simp [hn, this]
    · have hn : ¬ n < 10 := by
        intro hlt
        exact hdiv (Nat.div_eq_of_lt hlt)
      rw [if_neg hdiv]
      have hfuel : n / 10 < fuel := by
        have h1 : n / 10 < n := Nat.div_lt_self (by omega) (by omega)
        omega
      rw [ih (n / 10) (Nat.digitChar (n % 10) :: ds) hfuel]
      have hdn : decDigits n = decDigits (n / 10) ++ [Nat.digitChar (n % 10)] := by
        rw [decDigits]; simp [hn]
      rw [hdn, List.append_assoc]
      rfl

theorem repr_eq_decDigits (n : Nat) : Nat.repr n = String.mk (decDigits n) := by
  show (Nat.toDigits 10 n).asString = _
  rw [Nat.toDigits, toDigitsCore_eq_decDigits (n + 1) n [] (Nat.lt_succ_self n)]
  simp [List.asString]

theorem repr_injective : Function.Injective Nat.repr := by
  intro m n h
  rw [repr_eq_decDigits, repr_eq_decDigits] at h
  have hl : decDigits m = decDigits n := congrArg String.data h
  have := congrArg decodeDigits hl
  rwa [decodeDigits_decDigits, decodeDigits_decDigits] at this

theorem data_candidate_succ (base : String) (n : Nat) :
    (candidate base (n + 1)).data = base.data ++ '-' :: (Nat.repr (n + 1)).data := by
  show (base ++ "-" ++ Nat.repr (n + 1)).data = _
  simp [String.data_append]

theorem repr_data_ne_nil (n : Nat) : (Nat.repr n).data ≠ [] := by
  rw [repr_eq_decDigits]
  exact decDigits_ne_nil n

theorem candidate_injective (base : String) : Function.Injective (candidate base) := by
  intro m n h
  match m, n with
  | 0, 0 => rfl
  | 0, n + 1 =>
    exfalso
    have hd := congrArg String.data h
    rw [data_candidate_succ] at hd
    have hlen := congrArg List.length hd
    simp only [show (candidate base 0).data = base.data from rfl,
      List.length_append, List.length_cons] at hlen
    omega
  | m + 1, 0 =>
    exfalso
    have hd := congrArg String.data h
    rw [data_candidate_succ] at hd
    have hlen := congrArg List.length hd
    simp only [show (candidate base 0).data = base.data from rfl,
      List.length_append, List.length_cons] at hlen
    omega
  | m + 1, n + 1 =>
    have hd := congrArg String.data h
    rw [data_candidate_succ, data_candidate_succ] at hd
    have hrepr : (Nat.repr (m + 1)).data = (Nat.repr (n + 1)).data :=
      List.tail_eq_of_cons_eq (List.append_cancel_left hd)
    exact repr_injective (String.ext hrepr)

/-- Pigeonhole: among the first `taken.length + 1` candidates some one is
free, because distinct indices give distinct candidate strings. -/
theorem exists_candidate_free (taken : List String) (base : String) :
    ∃ n, n ≤ taken.length ∧ candidate base n ∉ taken := by
  by_contra hall
  push_neg at hall
  have hsub : ((List.range (taken.length + 1)).map (candidate base)) ⊆ taken := by
    intro s hs
    rcases List.mem_map.mp hs with ⟨n, hn, rfl⟩
    exact hall n (Nat.lt_succ_iff.mp (List.mem_range.mp hn))
  have hnd : ((List.range (taken.length + 1)).map (candidate base)).Nodup :=
    (List.nodup_range _).map (candidate_injective base)
  have hle := (hnd.subperm hsub).length_le
  simp at hle

/-- If some candidate with index in `[counter, counter + fuel)` is free,
the loop returns the first free candidate at or after `counter`, and
every candidate before it is taken. -/
theorem slugSearch_spec (taken : List String) (base : String) :
    ∀ fuel counter, (∃ k, k < fuel ∧ candidate base (counter + k) ∉ taken) →
      ∃ j, slugSearch taken base counter fuel = candidate base (counter + j) ∧
        candidate base (counter + j) ∉ taken ∧
        ∀ i, i < j → candidate base (counter + i) ∈ taken := by
  intro fuel
  induction fuel with
  | zero =>
    intro counter h
    obtain ⟨k, hk, -⟩ := h
    omega
  | succ fuel ih =>
    intro counter h
    obtain ⟨k, hk, hkfree⟩ := h
    rw [slugSearch]
    by_cases hmem : candidate base counter ∈ taken
    · rw [if_pos hmem]
      have hkpos : k ≠ 0 := by
        intro h0
        rw [h0, Nat.add_zero] at hkfree
        exact hkfree hmem
      have hprev : ∃ j, j < fuel ∧ candidate base (counter + 1 + j) ∉ taken := by
        refine ⟨k - 1, by omega, ?_⟩
        have heqk : counter + 1 + (k - 1) = counter + k := by omega
        rw [heqk]
        exact hkfree
      obtain ⟨j, heq, hfree, hmin⟩ := ih (counter + 1) hprev
      refine ⟨j + 1, ?_, ?_, ?_⟩
      · rw [heq]
        congr 1
        omega
      · have heqj : counter + (j + 1) = counter + 1 + j := by omega
        rw [heqj]
        exact hfree
      · intro i hi
        cases i with
        | zero => simpa using hmem
        | succ i =>
          have heqi : counter + (i + 1) = counter + 1 + i := by omega
          rw [heqi]
          exact hmin i (by omega)
    · rw [if_neg hmem]
      refine ⟨0, by rw [Nat.add_zero], ?_, by omega⟩
      rw [Nat.add_zero]
      exact hmem

/-- The assigned slug is the first candidate not in `taken`. -/
theorem resolveSlug_spec (taken : List String) (base : String) :
    ∃ n, resolveSlug taken base = candidate base n ∧
      candidate base n ∉ taken ∧
      ∀ m, m < n → candidate base m ∈ taken := by
  obtain ⟨k, hk, hfree⟩ := exists_candidate_free taken base
  obtain ⟨j, heq, hfreej, hmin⟩ := slugSearch_spec taken base (taken.length + 1) 0
    ⟨k, by omega, by simpa using hfree⟩
  refine ⟨j, ?_, ?_, ?_⟩
  · simpa using heq
  · simpa using hfreej
  · intro m hm; simpa using hmin m hm

/-- The assigned slug is never one already taken. -/
theorem resolveSlug_not_mem (taken : List String) (base : String) :
    resolveSlug taken base ∉ taken := by
  obtain ⟨n, heq, hfree, _⟩ := resolveSlug_spec taken base
  rw [heq]; exact hfree

/-- If the base itself is free, it is assigned unchanged. -/
theorem resolveSlug_of_base_free (taken : List String) (base : String)
    (h : base ∉ taken) : resolveSlug taken base = base := by
  rw [resolveSlug, slugSearch, if_neg (by simpa using h)]
  rfl

/-! ## Helper lemmas about the save methods -/

theorem otherSlugs_none {α : Type} (pkOf : α → Option Nat) (slugOf : α → String)
    (db : List α) : otherSlugs pkOf slugOf db none = db.map slugOf := by
  unfold otherSlugs
  congr 1
  apply List.filter_eq_self.mpr
  intro a _
  simp

theorem Product.save_stock (db : List Product) (p : Product) :
    (Product.save db p).stock = p.stock := by
  unfold Product.save
  by_cases h : p.slug = "" <;> simp only [h, if_true, if_false, ite_true, ite_false] <;>
    split <;> rfl

theorem Product.save_status (db : List Product) (p : Product) :
    (Product.save db p).status =
      if 0 < p.stock then StockStatus.in_stock else StockStatus.out_of_stock := by
  unfold Product.save
  by_cases h : p.slug = "" <;>
    simp only [h, if_true, if_false, ite_true, ite_false] <;>
    by_cases hs : 0 < p.stock <;>
    simp [hs, Nat.pos_iff_ne_zero]

theorem Product.save_slug (db : List Product) (p : Product) :
    (Product.save db p).slug =
      if p.slug = "" then
        resolveSlug (otherSlugs Product.pk Product.slug db p.pk) (slugify p.name)
      else p.slug := by
  unfold Product.save
  by_cases h : p.slug = "" <;>
    simp only [h, if_true, if_false, ite_true, ite_false] <;>
    split <;> rfl

theorem cacheGet_cons (kv : String × CacheVal) (l : Cache) (k : String) :
    cacheGet (kv :: l) k = if kv.1 = k then some kv.2 else cacheGet l k := by
  unfold cacheGet
  by_cases h : kv.1 = k <;> simp [List.find?, h]

/-- Deleted keys are gone: `delete_many` removes every listed key. -/
theorem cacheGet_deleteMany_of_mem (c : Cache) (keys : List String) (k : String)
    (h : k ∈ keys) : cacheGet (cacheDeleteMany c keys) k = none := by
  induction c with
  | nil => rfl
  | cons kv rest ih =>
    unfold cacheDeleteMany at ih ⊢
    by_cases hk : kv.1 ∈ keys
    · rw [List.filter_cons_of_neg (by simpa using hk)]
      exact ih
    · rw [List.filter_cons_of_pos (by simpa using hk)]
      rw [cacheGet_cons]
      have hne : kv.1 ≠ k := fun hc => hk (hc ▸ h)
      rw [if_neg hne]
      exact ih

/-! ## Claim theorems -/

/-- C1, counterexample: a product row with `stock = 0` and stored status
`IN_STOCK` is serialized with status `in_stock`:
`ProductSerializer.get_status` returns the stored field unchanged, so
the client view does not recompute `stock > 0 ? in_stock : out_of_stock`
as claimed, and the stale stored value is what the client sees. -/
theorem claim_C1_counterexample :
    staleProduct.stock = 0 ∧ staleProduct.status = StockStatus.in_stock ∧
      (to_client_view none staleProduct).status ≠ StockStatus.out_of_stock := by
  refine ⟨rfl, rfl, ?_⟩
  decide

/-- C1, amended: the status field of the client view equals the stored
status (no re-derivation at read time); for any product that was
persisted through `Product.save` the stored status is derived from
stock, so for such products — and only for such products — the view
shows `in_stock` iff `stock > 0`. -/
theorem claim_C1_view_status_is_stored_status (request : Option Request) (p : Product) :
    (to_client_view request p).status = p.status ∧
      ∀ db q, (to_client_view request (Product.save db q)).status =
        if 0 < q.stock then StockStatus.in_stock else StockStatus.out_of_stock := by
  refine ⟨rfl, fun db q => ?_⟩
  show (Product.save db q).status = _
  exact Product.save_status db q

/-- C5: for every product and viewer, a `login_required` product viewed
by an unauthenticated client has `price = null` and
`price_requires_login = true`; in every other case the flag is false and
the price is the stored decimal, `0.00` when the stored price is null. -/
theorem claim_C5_price_visibility (request : Option Request) (p : Product) :
    (p.price_visibility = PriceVisibility.login_required ∧ userIsAuth request = false →
      (to_client_view request p).price = none ∧
        (to_client_view request p).price_requires_login = true) ∧
    (¬ (p.price_visibility = PriceVisibility.login_required ∧ userIsAuth request = false) →
      (to_client_view request p).price_requires_login = false ∧
        (to_client_view request p).price = some (p.price.getD 0)) := by
  constructor
  · intro h
    constructor
    · show ProductSerializer.get_price request p = none
      unfold ProductSerializer.get_price
      rw [if_pos h]
    · show ProductSerializer.get_price_requires_login request p = true
      unfold ProductSerializer.get_price_requires_login
      rw [if_pos h]
  · intro h
    constructor
    · show ProductSerializer.get_price_requires_login request p = false
      unfold ProductSerializer.get_price_requires_login
      rw [if_neg h]
    · show ProductSerializer.get_price request p = some (p.price.getD 0)
      unfold ProductSerializer.get_price
      rw [if_neg h]
      cases hp : p.price <;> simp [hp]

/-- C5, witness: the locked sample product viewed anonymously hides its
price and raises the flag. -/
theorem claim_C5_witness :
    (lockedProduct.price_visibility = PriceVisibility.login_required ∧
        userIsAuth none = false) ∧
      (to_client_view none lockedProduct).price = none ∧
      (to_client_view none lockedProduct).price_requires_login = true := by
  have h := (claim_C5_price_visibility none lockedProduct).1
  exact ⟨⟨rfl, rfl⟩, h ⟨rfl, rfl⟩⟩

/-- C6: after every `Product.save`, the stored status is a pure function
of the stored stock — `in_stock` when `stock > 0`, else `out_of_stock` —
whatever status value the caller had set on the instance. -/
theorem claim_C6_status_pure_function_of_stock (db : List Product) (p : Product) :
    (Product.save db p).status =
      if 0 < p.stock then StockStatus.in_stock else StockStatus.out_of_stock :=
  Product.save_status db p

/-- C9 (code bug): saving a poster-mode banner without a poster image,
or a standard-mode banner without a title, aborts before persisting —
but with `NameError` (the `raise ValidationError({...})` statements in
`HeroBanner.clean` reference a name `models.py` never imports), not with
the field-keyed validation error the claim describes
(`cleanIntended` shows what the code meant to raise); a banner meeting
its mode's requirements saves successfully. -/
theorem claim_C9_clean_raises_NameError :
    HeroBanner.save [] posterBannerNoImage =
        Except.error (PyError.nameError "ValidationError") ∧
      (∀ f m, HeroBanner.clean posterBannerNoImage ≠ some (PyError.validationError f m)) ∧
      HeroBanner.cleanIntended posterBannerNoImage =
        some (PyError.validationError "poster_image"
          "Poster image is required for Poster mode.") ∧
      HeroBanner.save [] standardBannerNoTitle =
        Except.error (PyError.nameError "ValidationError") ∧
      HeroBanner.save [] posterBannerWithImage = Except.ok [posterBannerWithImage] := by
  refine ⟨rfl, ?_, rfl, rfl, rfl⟩
  intro f m h
  have : PyError.nameError "ValidationError" = PyError.validationError f m :=
    Option.some.inj h
  exact PyError.noConfusion this

/-- C10: a product created through `perform_create` with no stock in the
request gets `stock = 1` (not the model default `0`) and hence status
`in_stock`. -/
theorem claim_C10_default_stock_one (db : List Product) (sub : Subcategory)
    (vd : ValidatedProductData) (h : vd.stock = none) :
    (perform_create db sub vd).1.stock = 1 ∧
      (perform_create db sub vd).1.status = StockStatus.in_stock := by
  by_cases hs : vd.status = none <;>
    simp [perform_create, h, hs, Product.save_stock, Product.save_status]

/-- C10, witness: creating the sample product with no stock supplied
stores stock 1 and status in_stock. -/
theorem claim_C10_witness :
    noStockVD.stock = none ∧
      (perform_create [alphaProduct] detectorsSub noStockVD).1.stock = 1 ∧
      (perform_create [alphaProduct] detectorsSub noStockVD).1.status =
        StockStatus.in_stock := by
  have h := claim_C10_default_stock_one [alphaProduct] detectorsSub noStockVD rfl
  exact ⟨rfl, h.1, h.2⟩

/-- C2, counterexample: a category whose name is all punctuation
normalizes to an empty base token, and saving it assigns the *empty*
slug (no other record holds `""`, so the collision loop accepts the
empty base) — the claimed non-emptiness does not hold. -/
theorem claim_C2_counterexample :
    slugify punctCategory.name = "" ∧ punctCategory.slug = "" ∧
      (Category.save [] punctCategory).slug = "" := by
  refine ⟨by decide, rfl, by decide⟩

/-- C2, amended: for a name whose normalization is empty, saving still
terminates and assigns a slug that no other record of the type holds —
but that slug is the empty string whenever no other record holds `""`
(and `-1`, `-2`, … otherwise), so the claimed non-emptiness fails. -/
theorem claim_C2_amended_empty_base (db : List Category) (c : Category)
    (hbase : slugify c.name = "") (hslug : c.slug = "") :
    ((Category.save db c).slug ∉ otherSlugs Category.pk Category.slug db c.pk) ∧
      ("" ∉ otherSlugs Category.pk Category.slug db c.pk →
        (Category.save db c).slug = "") := by
  have hsave : (Category.save db c).slug =
      resolveSlug (otherSlugs Category.pk Category.slug db c.pk) (slugify c.name) := by
    unfold Category.save
    rw [if_pos hslug]
  constructor
  · rw [hsave]
    exact resolveSlug_not_mem _ _
  · intro hfree
    rw [hsave, hbase]
    exact resolveSlug_of_base_free _ _ hfree

/-- C2, witness: the all-punctuation sample category gets the empty
slug, which no other record holds. -/
theorem claim_C2_witness :
    (slugify punctCategory.name = "" ∧ punctCategory.slug = "") ∧
      ((Category.save [] punctCategory).slug ∉
        otherSlugs Category.pk Category.slug [] punctCategory.pk) ∧
      (Category.save [] punctCategory).slug = "" := by
  have h := claim_C2_amended_empty_base [] punctCategory (by decide) rfl
  exact ⟨⟨by decide, rfl⟩, h.1, h.2 (by decide)⟩

/-- C3, counterexample: `Blog.save` lacks `.exclude(pk=self.pk)`. A
stored blog (pk 1, slug `hello`) re-saved with its slug cleared collides
with *its own* row: no record with a different identifier holds
`hello`, yet the assigned slug is `hello-1`, not the base `hello` the
claim requires. -/
theorem claim_C3_counterexample :
    otherSlugs Blog.pk Blog.slug [helloBlogRow] (some 1) = [] ∧
      slugify "Hello" = "hello" ∧
      (Blog.save [helloBlogRow] { helloBlogRow with slug := "" }).slug = "hello-1" := by
  refine ⟨by decide, by decide, by decide⟩

/-- C3, amended: for Category, Subcategory and Product the assigned slug
is the first of `base`, `base-1`, `base-2`, … not held by a record with
a *different* identifier, exactly as claimed; for Blog the collision
check does not exclude the record being saved, so the slug is the first
candidate held by *no stored record at all* (its own row included).
Two categories created in sequence with the same display name still get
distinct slugs along the candidate sequence, in creation order. -/
theorem claim_C3_amended_slug_sequence :
    (∀ (db : List Category) (c : Category), c.slug = "" →
      ∃ n, (Category.save db c).slug = candidate (slugify c.name) n ∧
        candidate (slugify c.name) n ∉ otherSlugs Category.pk Category.slug db c.pk ∧
        ∀ m, m < n →
          candidate (slugify c.name) m ∈ otherSlugs Category.pk Category.slug db c.pk) ∧
    (∀ (db : List Subcategory) (s : Subcategory), s.slug = "" →
      ∃ n, (Subcategory.save db s).slug = candidate (slugify s.name) n ∧
        candidate (slugify s.name) n ∉ otherSlugs Subcategory.pk Subcategory.slug db s.pk ∧
        ∀ m, m < n →
          candidate (slugify s.name) m ∈ otherSlugs Subcategory.pk Subcategory.slug db s.pk) ∧
    (∀ (db : List Product) (p : Product), p.slug = "" →
      ∃ n, (Product.save db p).slug = candidate (slugify p.name) n ∧
        candidate (slugify p.name) n ∉ otherSlugs Product.pk Product.slug db p.pk ∧
        ∀ m, m < n →
          candidate (slugify p.name) m ∈ otherSlugs Product.pk Product.slug db p.pk) ∧
    (∀ (db : List Blog) (b : Blog), b.slug = "" →
      ∃ n, (Blog.save db b).slug = candidate (slugify b.title) n ∧
        candidate (slugify b.title) n ∉ allSlugs db ∧
        ∀ m, m < n → candidate (slugify b.title) m ∈ allSlugs db) ∧
    (∀ (db : List Category) (c₁ c₂ : Category), c₁.slug = "" → c₂.slug = "" →
      c₁.pk = none → c₂.pk = none → c₂.name = c₁.name →
      (Category.create (Category.create db c₁).2 c₂).1.slug ≠
          (Category.create db c₁).1.slug ∧
        ∃ n m, (Category.create db c₁).1.slug = candidate (slugify c₁.name) n ∧
          (Category.create (Category.create db c₁).2 c₂).1.slug =
            candidate (slugify c₁.name) m ∧
          n < m) := by
  refine ⟨?_, ?_, ?_, ?_, ?_⟩
  · intro db c h
    have hsave : (Category.save db c).slug =
        resolveSlug (otherSlugs Category.pk Category.slug db c.pk) (slugify c.name) := by
      unfold Category.save
      rw [if_pos h]
    obtain ⟨n, heq, hfree, hmin⟩ :=
      resolveSlug_spec (otherSlugs Category.pk Category.slug db c.pk) (slugify c.name)
    exact ⟨n, by rw [hsave, heq], hfree, hmin⟩
  · intro db s h
    have hsave : (Subcategory.save db s).slug =
        resolveSlug (otherSlugs Subcategory.pk Subcategory.slug db s.pk) (slugify s.name) := by
      unfold Subcategory.save
      rw [if_pos h]
    obtain ⟨n, heq, hfree, hmin⟩ :=
      resolveSlug_spec (otherSlugs Subcategory.pk Subcategory.slug db s.pk) (slugify s.name)
    exact ⟨n, by rw [hsave, heq], hfree, hmin⟩
  · intro db p h
    have hsave : (Product.save db p).slug =
        resolveSlug (otherSlugs Product.pk Product.slug db p.pk) (slugify p.name) := by
      rw [Product.save_slug, if_pos h]
    obtain ⟨n, heq, hfree, hmin⟩ :=
      resolveSlug_spec (otherSlugs Product.pk Product.slug db p.pk) (slugify p.name)
    exact ⟨n, by rw [hsave, heq], hfree, hmin⟩
  · intro db b h
    have hsave : (Blog.save db b).slug = resolveSlug (allSlugs db) (slugify b.title) := by
      unfold Blog.save
      rw [if_pos h]
    obtain ⟨n, heq, hfree, hmin⟩ := resolveSlug_spec (allSlugs db) (slugify b.title)
    exact ⟨n, by rw [hsave, heq], hfree, hmin⟩
  · intro db c₁ c₂ h1 h2 hpk1 hpk2 hname
    have hsave1 : (Category.save db c₁).slug =
        resolveSlug (db.map Category.slug) (slugify c₁.name) := by
      unfold Category.save
      rw [if_pos h1, hpk1, otherSlugs_none]
    obtain ⟨n, heq1, hfree1, hmin1⟩ :=
      resolveSlug_spec (db.map Category.slug) (slugify c₁.name)
    have hrow1 : (Category.create db c₁).1.slug = candidate (slugify c₁.name) n := by
      show (Category.save db c₁).slug = _
      rw [hsave1, heq1]
    have hdb1 : (Category.create db c₁).2.map Category.slug =
        db.map Category.slug ++ [candidate (slugify c₁.name) n] := by
      show (db ++ [_]).map Category.slug = _
      rw [List.map_append]
      simp only [List.map_cons, List.map_nil]
      rw [show ({ Category.save db c₁ with pk := some (freshPk Category.pk db) } :
            Category).slug = (Category.save db c₁).slug from rfl, hsave1, heq1]
    have hsave2 : (Category.save (Category.create db c₁).2 c₂).slug =
        resolveSlug ((Category.create db c₁).2.map Category.slug) (slugify c₁.name) := by
      unfold Category.save
      rw [if_pos h2, hpk2, otherSlugs_none, hname]
    obtain ⟨m, heq2, hfree2, hmin2⟩ :=
      resolveSlug_spec ((Category.create db c₁).2.map Category.slug) (slugify c₁.name)
    have hrow2 : (Category.create (Category.create db c₁).2 c₂).1.slug =
        candidate (slugify c₁.name) m := by
      show (Category.save (Category.create db c₁).2 c₂).slug = _
      rw [hsave2, heq2]
    have hmem1 : candidate (slugify c₁.name) n ∈
        (Category.create db c₁).2.map Category.slug := by
      rw [hdb1]
      exact List.mem_append_right _ (List.mem_singleton.mpr rfl)
    have hnm : n < m := by
      rcases Nat.lt_trichotomy n m with hlt | heqnm | hgt
      · exact hlt
      · exact absurd (heqnm ▸ hmem1) hfree2
      · have hmemm : candidate (slugify c₁.name) m ∈
            (Category.create db c₁).2.map Category.slug := by
          rw [hdb1]
          exact List.mem_append_left _ (hmin1 m hgt)
        exact absurd hmemm hfree2
    refine ⟨?_, n, m, hrow1, hrow2, hnm⟩
    rw [hrow1, hrow2]
    intro hc
    exact Nat.lt_irrefl n (by rw [candidate_injective _ hc] at hnm; exact hnm)

/-- C3, witness: two categories named `Fire Safety` created in sequence
receive `fire-safety` and `fire-safety-1`. -/
theorem claim_C3_witness :
    (Category.create [] { fireCat with pk := none, slug := "" }).1.slug = "fire-safety" ∧
      (Category.create (Category.create [] { fireCat with pk := none, slug := "" }).2
        { fireCat with pk := none, slug := "" }).1.slug = "fire-safety-1" := by
  have h := (claim_C3_amended_slug_sequence).2.2.2.2 []
    { fireCat with pk := none, slug := "" } { fireCat with pk := none, slug := "" }
    rfl rfl rfl rfl rfl
  exact ⟨by decide, by decide⟩

/-- C4: an entity that already has a non-empty slug keeps it on every
re-save, whatever its display name now is — slug derivation only runs
when the record has no slug yet. -/
theorem claim_C4_slug_immutable_on_resave :
    (∀ (db : List Category) (c : Category), c.slug ≠ "" →
      (Category.save db c).slug = c.slug) ∧
    (∀ (db : List Subcategory) (s : Subcategory), s.slug ≠ "" →
      (Subcategory.save db s).slug = s.slug) ∧
    (∀ (db : List Product) (p : Product), p.slug ≠ "" →
      (Product.save db p).slug = p.slug) ∧
    (∀ (db : List Blog) (b : Blog), b.slug ≠ "" →
      (Blog.save db b).slug = b.slug) := by
  refine ⟨?_, ?_, ?_, ?_⟩
  · intro db c h
    unfold Category.save
    rw [if_neg h]
  · intro db s h
    unfold Subcategory.save
    rw [if_neg h]
  · intro db p h
    rw [Product.save_slug, if_neg h]
  · intro db b h
    unfold Blog.save
    rw [if_neg h]

/-- C4, witness: renaming the saved sample category and re-saving keeps
its slug `fire-safety`. -/
theorem claim_C4_witness :
    fireCat.slug ≠ "" ∧
      (Category.save [fireCat] { fireCat with name := "Renamed Fire Safety" }).slug =
        "fire-safety" := by
  have h := (claim_C4_slug_immutable_on_resave).1 [fireCat]
    { fireCat with name := "Renamed Fire Safety" } (by decide)
  exact ⟨by decide, h⟩

/-- C7, counterexample: populate the products-by-subcategory endpoint's
caches for `detectors`, create a product under `detectors`, read again:
the second read still returns the pre-write response `[1]` — the create
deleted the look-aside queryset key but not the `cache_page` response
key, so the read after the write serves stale data (the store now lists
`[2, 1]`). -/
theorem claim_C7_counterexample :
    (productsBySubcategoryGet traceState0 "detectors").1 = [1] ∧
      (productsBySubcategoryGet traceState2 "detectors").1 = [1] ∧
      queryProductsBySubcategory traceState2.products "detectors" = [2, 1] ∧
      (productsBySubcategoryGet traceState2 "detectors").1 ≠
        queryProductsBySubcategory traceState2.products "detectors" := by
  refine ⟨by decide, by decide, by decide, by decide⟩

/-- C7, amended: creating a product under subcategory S synchronously
deletes the look-aside cache keys — the global product, category and
subcategory list keys, the popular-products key, and the
products-by-subcategory-S queryset key — so the queryset-level cache
cannot serve pre-write data; the page-level `cache_page` response cache
on the endpoint is not among the deleted keys, and the next read can
still serve the pre-write response until that entry expires. -/
theorem claim_C7_create_invalidates_lookaside_keys (st : SysState)
    (sub : Subcategory) (vd : ValidatedProductData) :
    cacheGet (productCreatePost st sub vd).2.cache
        (products_by_subcategory_key sub.slug) = none ∧
      cacheGet (productCreatePost st sub vd).2.cache all_products_key = none ∧
      cacheGet (productCreatePost st sub vd).2.cache all_categories_key = none ∧
      cacheGet (productCreatePost st sub vd).2.cache all_subcategories_key = none ∧
      cacheGet (productCreatePost st sub vd).2.cache popular_products_key = none := by
  refine ⟨?_, ?_, ?_, ?_, ?_⟩ <;>
    · apply cacheGet_deleteMany_of_mem
      simp [invalidate_product_caches]

/-- C8, counterexample: a raising cache backend makes
`get_cached_queryset` (and `get_or_set_cache`) propagate the error —
the request fails instead of falling back to computing the data from
the store, contrary to the claimed fail-open behavior. -/
theorem claim_C8_counterexample :
    get_cached_queryset failingBackend all_products_key (fun _ => [1]) 900 =
        Except.error "cache backend down" ∧
      get_or_set_cache failingBackend all_products_key (fun _ => [1]) 900 =
        Except.error "cache backend down" ∧
      ∀ v, get_cached_queryset failingBackend all_products_key (fun _ => [1]) 900 ≠
        Except.ok v := by
  refine ⟨rfl, rfl, ?_⟩
  intro v h
  have hv : (Except.error "cache backend down" : Except String CacheVal) =
      Except.ok v := h
  exact Except.noConfusion hv

/-- C8, amended: neither `get_cached_queryset` (views.py) nor
`get_or_set_cache` (cache_utils.py) wraps its cache calls in
`try/except`, so a backend error during `get`, or during `set` after a
miss, propagates to the caller unchanged; no fallback to direct
computation happens in these two read paths (only helpers such as
`warm_cache` swallow backend errors). -/
theorem claim_C8_cache_errors_propagate (backend : CacheBackend) (key : String)
    (f : Unit → CacheVal) (t : Nat) :
    (∀ e, backend.get key = Except.error e →
      get_cached_queryset backend key f t = Except.error e ∧
        get_or_set_cache backend key f t = Except.error e) ∧
    (∀ e, backend.get key = Except.ok none →
      backend.set key (f ()) = Except.error e →
        get_cached_queryset backend key f t = Except.error e ∧
          get_or_set_cache backend key f t = Except.error e) := by
  constructor
  · intro e he
    constructor
    · unfold get_cached_queryset
      rw [he]
      rfl
    · unfold get_or_set_cache
      rw [he]
      rfl
  · intro e hg hs
    constructor
    · unfold get_cached_queryset
      rw [hg]
      show (backend.set key (f ()) >>= fun _ => pure (f ())) = Except.error e
      rw [hs]
      rfl
    · unfold get_or_set_cache
      rw [hg]
      show (backend.set key (f ()) >>= fun _ => pure (f ())) = Except.error e
      rw [hs]
      rfl

/-- C8, witness: the sample raising backend propagates its error out of
both read helpers. -/
theorem claim_C8_witness :
    failingBackend.get all_products_key = Except.error "cache backend down" ∧
      get_cached_queryset failingBackend all_products_key (fun _ => [2]) 900 =
        Except.error "cache backend down" ∧
      get_or_set_cache failingBackend all_products_key (fun _ => [2]) 900 =
        Except.error "cache backend down" := by
  have h := (claim_C8_cache_errors_propagate failingBackend all_products_key
    (fun _ => [2]) 900).1 "cache backend down" rfl
  exact ⟨rfl, h.1, h.2⟩

end EdgeBackend

